import Mathlib

/-!
# Verification of the premium-predictor core (`app/helper.py`)

Shallow embedding of the feature-encoding and prediction pipeline of the
health-insurance premium predictor.  Python floats are modelled by `ℚ`
(every IEEE double is a rational and the pipeline performs only field
operations, comparisons and rounding on them), Python ints by `ℤ`, the
loosely-typed input dict by a record of `Option`-valued fields, and the
process-wide artifact globals (`model_young`, `model_rest`, `scaler_young`,
`scaler_rest`) by an explicit `Artifacts` state passed to each function.
Fallible code returns `Except Err _`.
-/

/-- Python's whitespace set for `str.strip()` (ASCII part). -/
def pyIsSpace (c : Char) : Bool :=
  c = ' ' || c = '\t' || c = '\n' || c = '\r' || c = '\x0b' || c = '\x0c'

/-- `str.strip()` on the character list: drop whitespace from both ends. -/
def pyStrip (l : List Char) : List Char :=
  ((l.dropWhile pyIsSpace).reverse.dropWhile pyIsSpace).reverse

/-- `str.lower()` (ASCII lowercasing, which covers every string the code compares). -/
def pyLower (l : List Char) : List Char :=
  l.map Char.toLower

/-- `str.strip()` at `String` level. -/
def pyStripS (s : String) : String :=
  String.mk (pyStrip s.data)

/-- `str.lower()` at `String` level. -/
def pyLowerS (s : String) : String :=
  String.mk (pyLower s.data)

/-- `medical_history.replace(",", " & ")`: every comma becomes `' ', '&', ' '`. -/
def pyReplaceComma : List Char → List Char
  | [] => []
  | ',' :: rest => ' ' :: '&' :: ' ' :: pyReplaceComma rest
  | c :: rest => c :: pyReplaceComma rest

/-- Prepend a character to the first chunk of a split result. -/
def consHead (c : Char) : List (List Char) → List (List Char)
  | [] => [[c]]
  | t :: ts => (c :: t) :: ts

/-- `s.split(" & ")`: cut at each leftmost non-overlapping occurrence of
`' ', '&', ' '`, exactly as Python's `str.split` with that separator. -/
def splitAmp : List Char → List (List Char)
  | [] => [[]]
  | ' ' :: '&' :: ' ' :: rest => [] :: splitAmp rest
  | c :: rest => consHead c (splitAmp rest)

/-- Splitting on either separator `" & "` or `","` directly (the literal
reading of the claimed tokenization), scanning left to right. -/
def splitEither : List Char → List (List Char)
  | [] => [[]]
  | ' ' :: '&' :: ' ' :: rest => [] :: splitEither rest
  | ',' :: rest => [] :: splitEither rest
  | c :: rest => consHead c (splitEither rest)

/-- `d.get(k, dflt)` on a Python dict literal modelled as an association list. -/
def pyDictGet {α : Type} (d : List (String × α)) (k : String) (dflt : α) : α :=
  ((d.find? (fun p => p.1 == k)).map (·.2)).getD dflt

/-- `_RISK_SCORES` dict from `helper.py` (lowercased keys). -/
def _RISK_SCORES : List (String × ℕ) :=
  [("diabetes", 6), ("heart disease", 8), ("high blood pressure", 6),
   ("thyroid", 5), ("no disease", 0), ("none", 0)]

/-- `calculate_normalized_risk` from `helper.py`: guard empty/whitespace input,
replace commas by `" & "`, split on `" & "`, strip+lowercase tokens, sum the
table scores, divide by the frozen 14 and clip to `[0, 1]`. -/
def calculate_normalized_risk (medical_history : String) : ℚ :=
  if pyStrip medical_history.data = [] then 0
  else
    let parts : List String :=
      (splitAmp (pyReplaceComma medical_history.data)).map
        (fun t => String.mk (pyLower (pyStrip t)))
    let total : ℕ := (parts.map (fun p => pyDictGet _RISK_SCORES p 0)).sum
    let max_score : ℕ := 14
    let normalized : ℚ := if 0 < max_score then (total : ℚ) / (max_score : ℚ) else 0
    min (max normalized 0) 1

/-- Severity table as the claim words it: diabetes 6, heart disease 8,
high blood pressure 6, thyroid 5, `"no disease"`/`"none"`/anything else 0. -/
def severityClaim (t : String) : ℕ :=
  if t = "diabetes" then 6
  else if t = "heart disease" then 8
  else if t = "high blood pressure" then 6
  else if t = "thyroid" then 5
  else if t = "no disease" then 0
  else if t = "none" then 0
  else 0

/-- Clip to the closed interval `[0, 1]`, as the claim words it. -/
def clip01 (q : ℚ) : ℚ :=
  if q < 0 then 0 else if 1 < q then 1 else q

/-- The claimed risk score, read literally: split the string on `" & "` or
`","`, trim and lowercase each token, score by the table, sum, divide by the
frozen 14, clip to `[0, 1]`. -/
def riskScoreClaim (s : String) : ℚ :=
  clip01 ((((splitEither s.data).map
    (fun t => severityClaim (String.mk (pyLower (pyStrip t))))).sum : ℚ) / 14)

/-- The amended risk score: identical to `riskScoreClaim` except that the
tokenization is the code's (replace every `","` by `" & "`, then split on
`" & "`). -/
def riskScoreAmended (s : String) : ℚ :=
  clip01 ((((splitAmp (pyReplaceComma s.data)).map
    (fun t => severityClaim (String.mk (pyLower (pyStrip t))))).sum : ℚ) / 14)

/-- `_EXPECTED_COLUMNS` from `helper.py`: the fixed 18-field feature schema,
in training order. -/
def _EXPECTED_COLUMNS : List String :=
  ["age", "number_of_dependants", "income_lakhs", "insurance_plan",
   "genetical_risk", "normalized_risk_score", "gender_Male",
   "region_Northwest", "region_Southeast", "region_Southwest",
   "marital_status_Unmarried", "bmi_category_Obesity",
   "bmi_category_Overweight", "bmi_category_Underweight",
   "smoking_status_Occasional", "smoking_status_Regular",
   "employment_status_Salaried", "employment_status_Self-Employed"]

/-- `_INSURANCE_ENCODING` dict from `helper.py`. -/
def _INSURANCE_ENCODING : List (String × ℤ) :=
  [("Bronze", 1), ("Silver", 2), ("Gold", 3)]

instance {ε α : Type} [DecidableEq ε] [DecidableEq α] : DecidableEq (Except ε α) :=
  fun x y =>
    match x, y with
    | .ok a, .ok b =>
        if h : a = b then .isTrue (by rw [h])
        else .isFalse (by intro hh; cases hh; exact h rfl)
    | .ok _, .error _ => .isFalse (by intro hh; cases hh)
    | .error _, .ok _ => .isFalse (by intro hh; cases hh)
    | .error e, .error f =>
        if h : e = f then .isTrue (by rw [h])
        else .isFalse (by intro hh; cases hh; exact h rfl)

/-- The raw input dict handed to `preprocess_input`.  Each field is one key of
the Python dict (`Age`, `Number of Dependants`, `Income in Lakhs`,
`Genetical Risk`, `Insurance Plan`, `Employment Status`, `Gender`,
`Marital Status`, `BMI Category`, `Smoking Status`, `Region`,
`Medical History`); `none` models an absent key, matching `dict.get`'s
default. -/
structure InputRecord where
  age : Option ℤ
  numberOfDependants : Option ℤ
  incomeInLakhs : Option ℚ
  geneticalRisk : Option ℚ
  insurancePlan : Option String
  employmentStatus : Option String
  gender : Option String
  maritalStatus : Option String
  bmiCategory : Option String
  smokingStatus : Option String
  region : Option String
  medicalHistory : Option String
deriving DecidableEq

/-- The single-row DataFrame built by `preprocess_input`: one named numeric
cell per column of `_EXPECTED_COLUMNS`. -/
structure FeatureRow where
  age : ℚ
  number_of_dependants : ℚ
  income_lakhs : ℚ
  insurance_plan : ℚ
  genetical_risk : ℚ
  normalized_risk_score : ℚ
  gender_Male : ℚ
  region_Northwest : ℚ
  region_Southeast : ℚ
  region_Southwest : ℚ
  marital_status_Unmarried : ℚ
  bmi_category_Obesity : ℚ
  bmi_category_Overweight : ℚ
  bmi_category_Underweight : ℚ
  smoking_status_Occasional : ℚ
  smoking_status_Regular : ℚ
  employment_status_Salaried : ℚ
  employment_status_Self_Employed : ℚ
deriving DecidableEq

/-- The `region` elif-chain of `preprocess_input`: the row starts all-zero and
at most one of the three region flags is set. -/
def regionFlags (region : String) : ℚ × ℚ × ℚ :=
  let r := pyStripS region
  if r = "Northwest" then (1, 0, 0)
  else if r = "Southeast" then (0, 1, 0)
  else if r = "Southwest" then (0, 0, 1)
  else (0, 0, 0)

/-- The `bmi` elif-chain of `preprocess_input` (Obesity, Overweight,
Underweight flags). -/
def bmiFlags (bmi : String) : ℚ × ℚ × ℚ :=
  let b := pyStripS bmi
  if b = "Obesity" then (1, 0, 0)
  else if b = "Overweight" then (0, 1, 0)
  else if b = "Underweight" then (0, 0, 1)
  else (0, 0, 0)

/-- The `smoking` elif-chain of `preprocess_input` (Occasional, Regular). -/
def smokingFlags (smoking : String) : ℚ × ℚ :=
  let s := pyStripS smoking
  if s = "Occasional" then (1, 0)
  else if s = "Regular" then (0, 1)
  else (0, 0)

/-- The `employment` elif-chain of `preprocess_input` (Salaried,
Self-Employed). -/
def employmentFlags (employment : String) : ℚ × ℚ :=
  let e := pyStripS employment
  if e = "Salaried" then (1, 0)
  else if e = "Self-Employed" then (0, 1)
  else (0, 0)

/-- The pure encoding part of `preprocess_input` (everything before the
scaling step): numeric passthrough with 0 defaults, insurance lookup with
default 1, the one-hot chains, and the normalized risk score. -/
def encodeFeatures (d : InputRecord) : FeatureRow :=
  { age := ((d.age.getD 0 : ℤ) : ℚ)
    number_of_dependants := ((d.numberOfDependants.getD 0 : ℤ) : ℚ)
    income_lakhs := d.incomeInLakhs.getD 0
    genetical_risk := d.geneticalRisk.getD 0
    insurance_plan :=
      ((pyDictGet _INSURANCE_ENCODING (d.insurancePlan.getD "Bronze") 1 : ℤ) : ℚ)
    normalized_risk_score := calculate_normalized_risk (d.medicalHistory.getD "")
    gender_Male := if pyLowerS (d.gender.getD "") = "male" then 1 else 0
    region_Northwest := (regionFlags (d.region.getD "")).1
    region_Southeast := (regionFlags (d.region.getD "")).2.1
    region_Southwest := (regionFlags (d.region.getD "")).2.2
    marital_status_Unmarried :=
      if pyStripS (d.maritalStatus.getD "") = "Unmarried" then 1 else 0
    bmi_category_Obesity := (bmiFlags (d.bmiCategory.getD "")).1
    bmi_category_Overweight := (bmiFlags (d.bmiCategory.getD "")).2.1
    bmi_category_Underweight := (bmiFlags (d.bmiCategory.getD "")).2.2
    smoking_status_Occasional := (smokingFlags (d.smokingStatus.getD "")).1
    smoking_status_Regular := (smokingFlags (d.smokingStatus.getD "")).2
    employment_status_Salaried := (employmentFlags (d.employmentStatus.getD "")).1
    employment_status_Self_Employed := (employmentFlags (d.employmentStatus.getD "")).2 }

/-- Error taxonomy of the pipeline: `RuntimeError` for missing models,
`ValueError` from `_ensure_scaler_format` for a malformed scaler dict, and
`ValueError` for a scaler naming unknown columns (carrying the missing
column names, as the Python message does). -/
inductive Err where
  | modelsUnavailable
  | scalerDictInvalid
  | schemaMismatch (missing : List String)
deriving DecidableEq

/-- What `joblib.load` can yield for a scaler artifact, as far as
`_ensure_scaler_format` inspects it: a bare transform object, or a dict whose
`"scaler"` / `"cols_to_scale"` entries may each be present or missing (the
two `Bool`s record key presence; a payload whose key is absent is never
read).  A transform is opaque; it is modelled column-wise, as the fitted
per-column scalers (`StandardScaler`/`MinMaxScaler`) act. -/
inductive ScalerArtifact where
  | bare (transform : String → ℚ → ℚ)
  | dict (hasScaler : Bool) (hasCols : Bool) (transform : String → ℚ → ℚ)
      (cols : List String)

/-- The normalized form `_ensure_scaler_format` returns: a transform plus the
columns it applies to. -/
structure ScalerBundle where
  scaler : String → ℚ → ℚ
  cols_to_scale : List String

/-- `_ensure_scaler_format` from `helper.py`: `None` passes through, a dict
must carry both `"scaler"` and `"cols_to_scale"` (else `ValueError`), and a
bare transform is implicitly scoped to `["age", "income_lakhs"]`. -/
def _ensure_scaler_format : Option ScalerArtifact → Except Err (Option ScalerBundle)
  | none => .ok none
  | some (.dict hasScaler hasCols transform cols) =>
      if hasScaler && hasCols then .ok (some ⟨transform, cols⟩)
      else .error .scalerDictInvalid
  | some (.bare transform) => .ok (some ⟨transform, ["age", "income_lakhs"]⟩)

/-- The process-wide artifact globals of `helper.py` after the import-time
`try/except` loads: a model is `none` when its artifact failed to load, a
scaler is `none` when absent.  A model is opaque, exposing only
`predict(row) -> float`. -/
structure Artifacts where
  model_young : Option (FeatureRow → ℚ)
  model_rest : Option (FeatureRow → ℚ)
  scaler_young : Option ScalerArtifact
  scaler_rest : Option ScalerArtifact

/-- Python's `int()` on a float: truncation toward zero. -/
def pyInt (q : ℚ) : ℤ :=
  if 0 ≤ q then ⌊q⌋ else ⌈q⌉

/-- `df[cols] = scaler.transform(df[cols])`: each named column's cell is
replaced by the transform's output for that column. -/
def scaleRow (b : ScalerBundle) (r : FeatureRow) : FeatureRow :=
  { age := if b.cols_to_scale.contains "age" then b.scaler "age" r.age else r.age
    number_of_dependants :=
      if b.cols_to_scale.contains "number_of_dependants" then
        b.scaler "number_of_dependants" r.number_of_dependants
      else r.number_of_dependants
    income_lakhs :=
      if b.cols_to_scale.contains "income_lakhs" then
        b.scaler "income_lakhs" r.income_lakhs
      else r.income_lakhs
    insurance_plan :=
      if b.cols_to_scale.contains "insurance_plan" then
        b.scaler "insurance_plan" r.insurance_plan
      else r.insurance_plan
    genetical_risk :=
      if b.cols_to_scale.contains "genetical_risk" then
        b.scaler "genetical_risk" r.genetical_risk
      else r.genetical_risk
    normalized_risk_score :=
      if b.cols_to_scale.contains "normalized_risk_score" then
        b.scaler "normalized_risk_score" r.normalized_risk_score
      else r.normalized_risk_score
    gender_Male :=
      if b.cols_to_scale.contains "gender_Male" then
        b.scaler "gender_Male" r.gender_Male
      else r.gender_Male
    region_Northwest :=
      if b.cols_to_scale.contains "region_Northwest" then
        b.scaler "region_Northwest" r.region_Northwest
      else r.region_Northwest
    region_Southeast :=
      if b.cols_to_scale.contains "region_Southeast" then
        b.scaler "region_Southeast" r.region_Southeast
      else r.region_Southeast
    region_Southwest :=
      if b.cols_to_scale.contains "region_Southwest" then
        b.scaler "region_Southwest" r.region_Southwest
      else r.region_Southwest
    marital_status_Unmarried :=
      if b.cols_to_scale.contains "marital_status_Unmarried" then
        b.scaler "marital_status_Unmarried" r.marital_status_Unmarried
      else r.marital_status_Unmarried
    bmi_category_Obesity :=
      if b.cols_to_scale.contains "bmi_category_Obesity" then
        b.scaler "bmi_category_Obesity" r.bmi_category_Obesity
      else r.bmi_category_Obesity
    bmi_category_Overweight :=
      if b.cols_to_scale.contains "bmi_category_Overweight" then
        b.scaler "bmi_category_Overweight" r.bmi_category_Overweight
      else r.bmi_category_Overweight
    bmi_category_Underweight :=
      if b.cols_to_scale.contains "bmi_category_Underweight" then
        b.scaler "bmi_category_Underweight" r.bmi_category_Underweight
      else r.bmi_category_Underweight
    smoking_status_Occasional :=
      if b.cols_to_scale.contains "smoking_status_Occasional" then
        b.scaler "smoking_status_Occasional" r.smoking_status_Occasional
      else r.smoking_status_Occasional
    smoking_status_Regular :=
      if b.cols_to_scale.contains "smoking_status_Regular" then
        b.scaler "smoking_status_Regular" r.smoking_status_Regular
      else r.smoking_status_Regular
    employment_status_Salaried :=
      if b.cols_to_scale.contains "employment_status_Salaried" then
        b.scaler "employment_status_Salaried" r.employment_status_Salaried
      else r.employment_status_Salaried
    employment_status_Self_Employed :=
      if b.cols_to_scale.contains "employment_status_Self-Employed" then
        b.scaler "employment_status_Self-Employed" r.employment_status_Self_Employed
      else r.employment_status_Self_Employed }

/-- The scaler global `preprocess_input` picks for the applicant's age band
(`age <= 25` on the raw encoded age selects the young scaler). -/
def selScaler (art : Artifacts) (d : InputRecord) : Option ScalerArtifact :=
  if pyInt (encodeFeatures d).age ≤ 25 then art.scaler_young else art.scaler_rest

/-- The scaling step at the end of `preprocess_input`: no bundle leaves the
row untouched, a bundle must name only schema columns (else the
schema-mismatch `ValueError`, carrying the unknown columns), and a
malformed-scaler error propagates. -/
def scaleStep (df : FeatureRow) : Except Err (Option ScalerBundle) → Except Err FeatureRow
  | .error e => .error e
  | .ok none => .ok df
  | .ok (some b) =>
      let missing := b.cols_to_scale.filter (fun c => !(_EXPECTED_COLUMNS.contains c))
      if missing.isEmpty then .ok (scaleRow b df)
      else .error (.schemaMismatch missing)

/-- `preprocess_input` from `helper.py`: encode, pick the age band's scaler,
normalize its format, fail when it names columns outside
`_EXPECTED_COLUMNS`, otherwise transform those columns in place. -/
def preprocess_input (art : Artifacts) (d : InputRecord) : Except Err FeatureRow :=
  scaleStep (encodeFeatures d) (_ensure_scaler_format (selScaler art d))

/-- Python's single-argument `round` on a float: round to the nearest
integer, ties to the even integer. -/
def pyRound (q : ℚ) : ℤ :=
  if q - ⌊q⌋ < 1 / 2 then ⌊q⌋
  else if 1 / 2 < q - ⌊q⌋ then ⌊q⌋ + 1
  else if ⌊q⌋ % 2 = 0 then ⌊q⌋ else ⌊q⌋ + 1

/-- Round half-up, the convention the claim asserts for the predictor's
post-processing: `⌊q + 1/2⌋`. -/
def roundHalfUp (q : ℚ) : ℤ :=
  ⌊q + 1 / 2⌋

/-- `predict` from `helper.py`: fail when either model global is `None`,
preprocess, dispatch on the (possibly scaled) `age` cell of the returned
frame, and return `int(max(0, round(val)))`. -/
def predict (art : Artifacts) (d : InputRecord) : Except Err ℤ :=
  match art.model_young, art.model_rest with
  | some my, some mr =>
      match preprocess_input art d with
      | .error e => .error e
      | .ok df =>
          let val : ℚ := if pyInt df.age ≤ 25 then my df else mr df
          .ok (max 0 (pyRound val))
  | _, _ => .error .modelsUnavailable

/-- The dispatched model output inside `predict`, for stating the
post-processing contract. -/
def modelOut (my mr : FeatureRow → ℚ) (df : FeatureRow) : ℚ :=
  if pyInt df.age ≤ 25 then my df else mr df

/-- `predict` with the process-wide state threaded explicitly: the body of
`helper.py` contains no assignment to the module globals after import, so
the post-call state is the pre-call state. -/
def predictS (art : Artifacts) (d : InputRecord) : Except Err ℤ × Artifacts :=
  (predict art d, art)

/-- The sample record from `helper.py`'s `__main__` block. -/
def sampleInput : InputRecord :=
  { age := some 30
    numberOfDependants := some 0
    incomeInLakhs := some 12
    geneticalRisk := some 1
    insurancePlan := some "Silver"
    employmentStatus := some "Salaried"
    gender := some "Male"
    maritalStatus := some "Unmarried"
    bmiCategory := some "Normal"
    smokingStatus := some "No Smoking"
    region := some "Northwest"
    medicalHistory := some "No Disease" }

/-- The insurance-plan lookup as the claim words it: Bronze 1, Silver 2,
Gold 3, anything else (or a missing value) 1. -/
def planCodeClaim : Option String → ℤ
  | none => 1
  | some s =>
      if s = "Bronze" then 1
      else if s = "Silver" then 2
      else if s = "Gold" then 3
      else 1

/-- The baseline record of the one-hot claim: every categorical value is its
group's implicit baseline. -/
def baselineInput : InputRecord :=
  { age := some 30
    numberOfDependants := some 0
    incomeInLakhs := some 10
    geneticalRisk := some 0
    insurancePlan := some "Bronze"
    employmentStatus := some "Freelancer"
    gender := some "Female"
    maritalStatus := some "Married"
    bmiCategory := some "Normal"
    smokingStatus := some "No Smoking"
    region := some "Northeast"
    medicalHistory := some "No Disease" }

/-- `baselineInput` with a leading space in the region value. -/
def paddedRegionInput : InputRecord :=
  { baselineInput with region := some " Northwest" }

/-- A model stub returning a constant score. -/
def mConst (v : ℚ) : FeatureRow → ℚ := fun _ => v

/-- Loaded state: both models present (returning 500), no scalers. -/
def art500 : Artifacts :=
  { model_young := some (mConst 500), model_rest := some (mConst 500),
    scaler_young := none, scaler_rest := none }

/-- Loaded state whose models both return 5/2, no scalers. -/
def artHalf : Artifacts :=
  { model_young := some (mConst (5 / 2)), model_rest := some (mConst (5 / 2)),
    scaler_young := none, scaler_rest := none }

/-- Loaded state with distinguishable models (young returns 111, rest 222)
and a rest-band scaler stored as a bare transform, which
`_ensure_scaler_format` scopes to the `age` and `income_lakhs` columns. -/
def artScaledRest : Artifacts :=
  { model_young := some (mConst 111), model_rest := some (mConst 222),
    scaler_young := none,
    scaler_rest := some (.bare (fun _ v => v / 100)) }

/-- `artScaledRest` without any scaler. -/
def artNoScalers : Artifacts :=
  { model_young := some (mConst 111), model_rest := some (mConst 222),
    scaler_young := none, scaler_rest := none }

/-- State whose rest-band scaler bundle names a column outside the schema. -/
def artBogusCol : Artifacts :=
  { model_young := none, model_rest := none, scaler_young := none,
    scaler_rest := some (.dict true true (fun _ v => v) ["bogus"]) }

/-- State with no artifacts loaded at all. -/
def artEmpty : Artifacts :=
  { model_young := none, model_rest := none,
    scaler_young := none, scaler_rest := none }

section

attribute [local semireducible] Rat.add Rat.mul Rat.inv Rat.sub

/-! ## Helper lemmas -/

theorem pyStrip_eq_nil_all_ws {l : List Char} (h : pyStrip l = []) :
    ∀ c ∈ l, pyIsSpace c := by
  unfold pyStrip at h
  rw [List.reverse_eq_nil_iff, List.dropWhile_eq_nil_iff] at h
  intro c hc
  rw [← List.takeWhile_append_dropWhile (p := pyIsSpace) (l := l),
    List.mem_append] at hc
  rcases hc with hc | hc
  · exact List.mem_takeWhile_imp hc
  · exact h c (List.mem_reverse.mpr hc)

theorem pyReplaceComma_all_ws {l : List Char} (h : ∀ c ∈ l, pyIsSpace c) :
    pyReplaceComma l = l := by
  induction l using pyReplaceComma.induct with
  | case1 => rfl
  | case2 rest _ =>
      exact absurd (h ',' (by simp)) (by decide)
  | case3 c rest hne ih =>
      rw [pyReplaceComma.eq_3 c rest hne,
        ih (fun x hx => h x (List.mem_cons_of_mem c hx))]

theorem splitAmp_all_ws {l : List Char} (h : ∀ c ∈ l, pyIsSpace c) :
    splitAmp l = [l] := by
  induction l using splitAmp.induct with
  | case1 => rfl
  | case2 rest _ =>
      exact absurd (h '&' (by simp)) (by decide)
  | case3 c rest hne ih =>
      rw [splitAmp.eq_3 c rest hne,
        ih (fun x hx => h x (List.mem_cons_of_mem c hx))]
      rfl

theorem sevEq (p : String) : pyDictGet _RISK_SCORES p 0 = severityClaim p := by
  by_cases h1 : p = "diabetes"
  · subst h1; decide
  by_cases h2 : p = "heart disease"
  · subst h2; decide
  by_cases h3 : p = "high blood pressure"
  · subst h3; decide
  by_cases h4 : p = "thyroid"
  · subst h4; decide
  by_cases h5 : p = "no disease"
  · subst h5; decide
  by_cases h6 : p = "none"
  · subst h6; decide
  have hf : _RISK_SCORES.find? (fun pr => pr.1 == p) = none := by
    rw [List.find?_eq_none]
    intro x hx
    simp only [_RISK_SCORES, List.mem_cons, List.not_mem_nil, or_false] at hx
    rcases hx with rfl | rfl | rfl | rfl | rfl | rfl <;>
      simp only [beq_iff_eq] <;> intro hk
    · exact h1 hk.symm
    · exact h2 hk.symm
    · exact h3 hk.symm
    · exact h4 hk.symm
    · exact h5 hk.symm
    · exact h6 hk.symm
  rw [pyDictGet, hf]
  simp [severityClaim, h1, h2, h3, h4, h5, h6]

theorem min_max_eq_clip01 (x : ℚ) : min (max x 0) 1 = clip01 x := by
  unfold clip01
  rcases lt_or_le x 0 with h | h
  · rw [if_pos h, max_eq_right h.le, min_eq_left (by norm_num)]
  · rw [if_neg (not_lt.mpr h), max_eq_left h]
    rcases lt_or_le 1 x with h1 | h1
    · rw [if_pos h1, min_eq_right h1.le]
    · rw [if_neg (not_lt.mpr h1), min_eq_left h1]

theorem calculate_eq_amended (s : String) :
    calculate_normalized_risk s = riskScoreAmended s := by
  unfold calculate_normalized_risk riskScoreAmended
  by_cases h : pyStrip s.data = []
  · rw [if_pos h]
    have hws : ∀ c ∈ s.data, pyIsSpace c := pyStrip_eq_nil_all_ws h
    rw [pyReplaceComma_all_ws hws, splitAmp_all_ws hws, List.map_cons,
      List.map_nil, h]
    have hsev : severityClaim (String.mk (pyLower [])) = 0 := by decide
    rw [hsev]
    norm_num [clip01]
  · rw [if_neg h]
    have hmap :
        (fun t => pyDictGet _RISK_SCORES (String.mk (pyLower (pyStrip t))) 0) =
          fun t => severityClaim (String.mk (pyLower (pyStrip t))) :=
      funext fun t => sevEq _
    simp only [List.map_map, Function.comp_def, hmap]
    rw [if_pos (by decide : (0:ℕ) < 14), min_max_eq_clip01]
    norm_num

/-- C2, counterexample: on the input `" &,diabetes"` the code scores `0`
(replacing the comma merges the stray `"&"` into the following token), while
the claimed procedure — split on `" & "` or `","`, trim, lowercase, score,
divide by 14, clip — yields `6/14` (tokens `"&"` and `"diabetes"`). -/
theorem C2_risk_cex :
    calculate_normalized_risk " &,diabetes" ≠ riskScoreClaim " &,diabetes"
    ∧ calculate_normalized_risk " &,diabetes" = 0
    ∧ riskScoreClaim " &,diabetes" = 6 / 14 :=
  ⟨by decide, by decide, by decide⟩

/-- C2, amended: for every medical-history string the normalized risk score
equals the claimed procedure with the tokenization read as the code performs
it — replace every `","` by `" & "`, then split on `" & "` (the spec's
"treat both as equivalent separators") — trim and lowercase each token,
score by the fixed table, sum, divide by the frozen 14, clip to `[0, 1]`;
the score always lies in `[0, 1]`, `"Heart disease"` alone gives `8/14`,
`"Diabetes & High blood pressure"` gives `12/14`, and `"No Disease"` and the
unknown token `"Foo"` give `0`. -/
theorem C2_risk_amended :
    (∀ s, calculate_normalized_risk s = riskScoreAmended s)
    ∧ (∀ s, 0 ≤ calculate_normalized_risk s ∧ calculate_normalized_risk s ≤ 1)
    ∧ calculate_normalized_risk "Heart disease" = 8 / 14
    ∧ calculate_normalized_risk "Diabetes & High blood pressure" = 12 / 14
    ∧ calculate_normalized_risk "No Disease" = 0
    ∧ calculate_normalized_risk "Foo" = 0 := by
  refine ⟨calculate_eq_amended, fun s => ?_, by decide, by decide, by decide, by decide⟩
  unfold calculate_normalized_risk
  split
  · norm_num
  · exact ⟨le_min (le_max_right _ _) zero_le_one, min_le_right _ _⟩

theorem pyRound_near (q : ℚ) :
    |q - (pyRound q : ℚ)| ≤ 1 / 2
    ∧ (|q - (pyRound q : ℚ)| = 1 / 2 → Even (pyRound q)) := by
  unfold pyRound
  have h0 : (0:ℚ) ≤ q - ⌊q⌋ := sub_nonneg.mpr (Int.floor_le q)
  have h1 : q - ⌊q⌋ < 1 := by
    have := Int.lt_floor_add_one q
    linarith
  split_ifs with ha hb hc
  · refine ⟨by rw [abs_of_nonneg h0]; linarith, fun habs => ?_⟩
    rw [abs_of_nonneg h0] at habs
    exfalso; linarith
  · have hcast : ((⌊q⌋ + 1 : ℤ) : ℚ) = (⌊q⌋ : ℚ) + 1 := by push_cast; ring
    rw [hcast]
    refine ⟨?_, fun habs => ?_⟩
    · rw [abs_of_nonpos (by linarith)]
      linarith
    · rw [abs_of_nonpos (by linarith)] at habs
      exfalso; linarith
  · have htie : q - ⌊q⌋ = 1 / 2 := le_antisymm (not_lt.mp hb) (not_lt.mp ha)
    exact ⟨by rw [abs_of_nonneg h0, htie], fun _ => Int.even_iff.mpr hc⟩
  · have htie : q - ⌊q⌋ = 1 / 2 := le_antisymm (not_lt.mp hb) (not_lt.mp ha)
    have hcast : ((⌊q⌋ + 1 : ℤ) : ℚ) = (⌊q⌋ : ℚ) + 1 := by push_cast; ring
    rw [hcast]
    have hodd : ¬ Even ⌊q⌋ := fun he => hc (Int.even_iff.mp he)
    refine ⟨?_, fun _ => Int.even_add_one.mpr hodd⟩
    rw [abs_of_nonpos (by linarith)]
    linarith

/-- C3, counterexample: with both models returning the float `2.5`, `predict`
returns `2` (Python's `round` is round-half-to-even), while the claimed
`max(0, round_half_up(model output))` is `3`. -/
theorem C3_round_cex :
    predict artHalf sampleInput = .ok 2
    ∧ max 0 (roundHalfUp ((5:ℚ) / 2)) = 3
    ∧ (2 : ℤ) ≠ 3 :=
  ⟨by decide, by decide, by decide⟩

/-- C3, amended: whenever both models are loaded and preprocessing succeeds,
`predict` returns `max 0 r` where `r` is the dispatched model's output
rounded to the nearest integer with ties going to the even integer
(Python's `round`), then clipped at zero. -/
theorem C3_round_amended (art : Artifacts) (d : InputRecord)
    (my mr : FeatureRow → ℚ) (hy : art.model_young = some my)
    (hr : art.model_rest = some mr) (df : FeatureRow)
    (hp : preprocess_input art d = .ok df) :
    predict art d = .ok (max 0 (pyRound (modelOut my mr df)))
    ∧ |modelOut my mr df - (pyRound (modelOut my mr df) : ℚ)| ≤ 1 / 2
    ∧ (|modelOut my mr df - (pyRound (modelOut my mr df) : ℚ)| = 1 / 2 →
        Even (pyRound (modelOut my mr df))) := by
  refine ⟨?_, (pyRound_near _).1, (pyRound_near _).2⟩
  unfold predict
  rw [hy, hr, hp]
  rfl

theorem C3_round_amended_witness :
    predict artHalf sampleInput =
      .ok (max 0 (pyRound
        (modelOut (mConst (5 / 2)) (mConst (5 / 2)) (encodeFeatures sampleInput))))
    ∧ |modelOut (mConst (5 / 2)) (mConst (5 / 2)) (encodeFeatures sampleInput) -
        (pyRound (modelOut (mConst (5 / 2)) (mConst (5 / 2))
          (encodeFeatures sampleInput)) : ℚ)| ≤ 1 / 2
    ∧ (|modelOut (mConst (5 / 2)) (mConst (5 / 2)) (encodeFeatures sampleInput) -
        (pyRound (modelOut (mConst (5 / 2)) (mConst (5 / 2))
          (encodeFeatures sampleInput)) : ℚ)| = 1 / 2 →
        Even (pyRound (modelOut (mConst (5 / 2)) (mConst (5 / 2))
          (encodeFeatures sampleInput)))) :=
  C3_round_amended artHalf sampleInput (mConst (5 / 2)) (mConst (5 / 2)) rfl rfl
    (encodeFeatures sampleInput) (by decide)

/-- C1: whenever `predict` succeeds, its result is non-negative — the value
returned is `max 0 (round val)`. -/
theorem C1_predict_nonneg (art : Artifacts) (d : InputRecord) (n : ℤ)
    (h : predict art d = .ok n) : 0 ≤ n := by
  revert h
  unfold predict
  cases art.model_young with
  | none => intro h; exact absurd h (by simp)
  | some my =>
      cases art.model_rest with
      | none => intro h; exact absurd h (by simp)
      | some mr =>
          cases hp : preprocess_input art d with
          | error e => intro h; exact absurd h (by simp)
          | ok df =>
              intro h
              injection h with h
              rw [← h]
              exact le_max_left 0 _

theorem C1_predict_nonneg_witness : (0:ℤ) ≤ 500 :=
  C1_predict_nonneg art500 sampleInput 500 (by decide)

/-- C4, code bug: with the 30-year-old sample record and the rest-band
scaler stored as a bare transform `v ↦ v/100` (hence scoped to `age` and
`income_lakhs`), `preprocess_input` selects the REST bundle (raw age 30 >
25) and scales the `age` cell to `0.3`, but `predict` then dispatches on
the scaled cell (`int(0.3) = 0 ≤ 25`) and invokes the YOUNG model (the
constant-111 stub), not the rest model (the constant-222 stub) that the
same input reaches when no scaler rewrites the age column. The two
age-threshold checks diverge, contradicting the spec's "must never
diverge" and the function's own docstring. -/
theorem C4_age_dispatch_bug :
    sampleInput.age = some 30
    ∧ Except.map FeatureRow.age (preprocess_input artScaledRest sampleInput) =
        .ok (3 / 10)
    ∧ predict artScaledRest sampleInput = .ok 111
    ∧ predict artNoScalers sampleInput = .ok 222 :=
  ⟨rfl, by decide, by decide, by decide⟩

/-- C5, counterexample: with region `" Northwest"` the code strips the value
before comparing and sets `region_Northwest = 1`, although `" Northwest"` is
not equal to `"Northwest"` under the claimed exact string comparison (an
unrecognized value should have left the flag at 0). -/
theorem C5_onehot_cex :
    (encodeFeatures paddedRegionInput).region_Northwest = 1
    ∧ " Northwest" ≠ "Northwest" :=
  ⟨by decide, by decide⟩

/-- C5, amended: every one-hot flag is 1 exactly when the category value,
after trimming leading/trailing whitespace, equals the flag's category by
exact case-sensitive comparison — except gender, which is compared
case-insensitively (and untrimmed) against `"male"`; unrecognized or
missing values leave a group's flags at 0, and the all-baseline record
(Female / Northeast / Married / Normal / No Smoking / Freelancer) encodes
with every flag 0. -/
theorem C5_onehot_amended :
    (∀ d : InputRecord,
      (encodeFeatures d).gender_Male =
        (if pyLowerS (d.gender.getD "") = "male" then 1 else 0)
      ∧ (encodeFeatures d).region_Northwest =
        (if pyStripS (d.region.getD "") = "Northwest" then 1 else 0)
      ∧ (encodeFeatures d).region_Southeast =
        (if pyStripS (d.region.getD "") = "Southeast" then 1 else 0)
      ∧ (encodeFeatures d).region_Southwest =
        (if pyStripS (d.region.getD "") = "Southwest" then 1 else 0)
      ∧ (encodeFeatures d).marital_status_Unmarried =
        (if pyStripS (d.maritalStatus.getD "") = "Unmarried" then 1 else 0)
      ∧ (encodeFeatures d).bmi_category_Obesity =
        (if pyStripS (d.bmiCategory.getD "") = "Obesity" then 1 else 0)
      ∧ (encodeFeatures d).bmi_category_Overweight =
        (if pyStripS (d.bmiCategory.getD "") = "Overweight" then 1 else 0)
      ∧ (encodeFeatures d).bmi_category_Underweight =
        (if pyStripS (d.bmiCategory.getD "") = "Underweight" then 1 else 0)
      ∧ (encodeFeatures d).smoking_status_Occasional =
        (if pyStripS (d.smokingStatus.getD "") = "Occasional" then 1 else 0)
      ∧ (encodeFeatures d).smoking_status_Regular =
        (if pyStripS (d.smokingStatus.getD "") = "Regular" then 1 else 0)
      ∧ (encodeFeatures d).employment_status_Salaried =
        (if pyStripS (d.employmentStatus.getD "") = "Salaried" then 1 else 0)
      ∧ (encodeFeatures d).employment_status_Self_Employed =
        (if pyStripS (d.employmentStatus.getD "") = "Self-Employed" then 1 else 0))
    ∧ ((encodeFeatures baselineInput).gender_Male = 0
      ∧ (encodeFeatures baselineInput).region_Northwest = 0
      ∧ (encodeFeatures baselineInput).region_Southeast = 0
      ∧ (encodeFeatures baselineInput).region_Southwest = 0
      ∧ (encodeFeatures baselineInput).marital_status_Unmarried = 0
      ∧ (encodeFeatures baselineInput).bmi_category_Obesity = 0
      ∧ (encodeFeatures baselineInput).bmi_category_Overweight = 0
      ∧ (encodeFeatures baselineInput).bmi_category_Underweight = 0
      ∧ (encodeFeatures baselineInput).smoking_status_Occasional = 0
      ∧ (encodeFeatures baselineInput).smoking_status_Regular = 0
      ∧ (encodeFeatures baselineInput).employment_status_Salaried = 0
      ∧ (encodeFeatures baselineInput).employment_status_Self_Employed = 0) := by
  constructor
  · intro d
    refine ⟨rfl, ?_, ?_, ?_, rfl, ?_, ?_, ?_, ?_, ?_, ?_, ?_⟩ <;>
      simp only [encodeFeatures, regionFlags, bmiFlags, smokingFlags,
        employmentFlags] <;>
      split_ifs <;> simp_all
  · exact ⟨by decide, by decide, by decide, by decide, by decide, by decide,
      by decide, by decide, by decide, by decide, by decide, by decide⟩

theorem ensure_error (o : Option ScalerArtifact) (e : Err)
    (h : _ensure_scaler_format o = .error e) : e = .scalerDictInvalid := by
  revert h
  cases o with
  | none => intro h; exact absurd h (by simp [_ensure_scaler_format])
  | some a =>
      cases a with
      | bare t => intro h; exact absurd h (by simp [_ensure_scaler_format])
      | dict hs hc t cols =>
          have hred : _ensure_scaler_format (some (.dict hs hc t cols)) =
              if (hs && hc) = true then .ok (some ⟨t, cols⟩)
              else .error .scalerDictInvalid := rfl
          rw [hred]
          intro h
          by_cases hcond : (hs && hc) = true
          · rw [if_pos hcond] at h
            exact absurd h (by simp)
          · rw [if_neg hcond] at h
            injection h with h
            exact h.symm

theorem preprocess_no_models_err (art : Artifacts) (d : InputRecord) (e : Err)
    (h : preprocess_input art d = .error e) : e ≠ .modelsUnavailable := by
  revert h
  unfold preprocess_input
  cases hs : _ensure_scaler_format (selScaler art d) with
  | error e2 =>
      intro h
      rw [show scaleStep (encodeFeatures d) (.error e2) = .error e2 from rfl] at h
      injection h with h
      rw [← h, ensure_error _ _ hs]
      exact fun hcon => Err.noConfusion hcon
  | ok ob =>
      cases ob with
      | none => intro h; exact absurd h (by simp [scaleStep])
      | some b =>
          rw [show scaleStep (encodeFeatures d) (.ok (some b)) =
              (if (b.cols_to_scale.filter
                  (fun c => !(_EXPECTED_COLUMNS.contains c))).isEmpty then
                Except.ok (scaleRow b (encodeFeatures d))
              else Except.error (.schemaMismatch (b.cols_to_scale.filter
                  (fun c => !(_EXPECTED_COLUMNS.contains c))))) from rfl]
          intro h
          split at h
          · exact absurd h (by simp)
          · injection h with h
            rw [← h]
            exact fun hcon => Err.noConfusion hcon

/-- C7: `predict` fails with the models-unavailable error exactly when at
least one of the two model globals is `None`.  The loader records a failed
load as `None` instead of raising (the `Artifacts` state is constructible
with absent models), and the error surfaces only inside `predict`; the
preprocessing path — in particular an absent scaler — can never produce
this error. -/
theorem C7_models_unavailable_iff (art : Artifacts) (d : InputRecord) :
    predict art d = .error .modelsUnavailable ↔
      art.model_young = none ∨ art.model_rest = none := by
  unfold predict
  cases hy : art.model_young with
  | none => simp
  | some my =>
      cases hr : art.model_rest with
      | none => simp
      | some mr =>
          cases hp : preprocess_input art d with
          | error e =>
              have hne := preprocess_no_models_err art d e hp
              constructor
              · intro h
                injection h with h
                exact absurd h hne
              · rintro (h | h) <;> exact Option.noConfusion h
          | ok df =>
              constructor
              · intro h
                exact absurd h (by simp)
              · rintro (h | h) <;> exact Option.noConfusion h

/-- C6: if the scaler bundle selected for the age band names a column
outside the fixed 18-column schema, `preprocess_input` fails with the
schema-mismatch error carrying exactly the unknown columns; if no scaler is
present for the band, scaling is skipped entirely and the unscaled encoding
is returned. -/
theorem C6_schema_mismatch (art : Artifacts) (d : InputRecord) :
    (∀ b : ScalerBundle,
      _ensure_scaler_format (selScaler art d) = .ok (some b) →
      (∃ c ∈ b.cols_to_scale, ¬ _EXPECTED_COLUMNS.contains c) →
      preprocess_input art d = .error (.schemaMismatch
        (b.cols_to_scale.filter (fun c => !(_EXPECTED_COLUMNS.contains c)))))
    ∧ (selScaler art d = none →
        preprocess_input art d = .ok (encodeFeatures d)) := by
  constructor
  · intro b hb hex
    obtain ⟨c, hc, hnc⟩ := hex
    unfold preprocess_input
    rw [hb]
    have hmem :
        c ∈ b.cols_to_scale.filter (fun c => !(_EXPECTED_COLUMNS.contains c)) :=
      List.mem_filter.mpr ⟨hc, by simpa using hnc⟩
    have hne :
        ¬ (b.cols_to_scale.filter
            (fun c => !(_EXPECTED_COLUMNS.contains c))).isEmpty = true := by
      intro hemp
      rw [List.isEmpty_iff] at hemp
      rw [hemp] at hmem
      exact absurd hmem (List.not_mem_nil c)
    rw [show scaleStep (encodeFeatures d) (.ok (some b)) =
        (if (b.cols_to_scale.filter
            (fun c => !(_EXPECTED_COLUMNS.contains c))).isEmpty then
          Except.ok (scaleRow b (encodeFeatures d))
        else Except.error (.schemaMismatch (b.cols_to_scale.filter
            (fun c => !(_EXPECTED_COLUMNS.contains c))))) from rfl]
    rw [if_neg hne]
  · intro h
    unfold preprocess_input
    rw [h]
    rfl

theorem C6_schema_mismatch_witness :
    preprocess_input artBogusCol sampleInput =
      .error (.schemaMismatch
        (["bogus"].filter (fun c => !(_EXPECTED_COLUMNS.contains c))))
    ∧ preprocess_input artEmpty sampleInput = .ok (encodeFeatures sampleInput) :=
  ⟨(C6_schema_mismatch artBogusCol sampleInput).1 ⟨fun _ v => v, ["bogus"]⟩ rfl
      ⟨"bogus", by decide, by decide⟩,
    (C6_schema_mismatch artEmpty sampleInput).2 rfl⟩

/-- C8: the encoded insurance-plan field is 1 for Bronze, 2 for Silver, 3
for Gold, and 1 for any unrecognized or missing value. -/
theorem C8_insurance_encoding :
    (∀ d : InputRecord,
      (encodeFeatures d).insurance_plan = ((planCodeClaim d.insurancePlan : ℤ) : ℚ))
    ∧ planCodeClaim (some "Bronze") = 1
    ∧ planCodeClaim (some "Silver") = 2
    ∧ planCodeClaim (some "Gold") = 3
    ∧ planCodeClaim none = 1
    ∧ (∀ s : String, s ≠ "Bronze" → s ≠ "Silver" → s ≠ "Gold" →
        planCodeClaim (some s) = 1) := by
  refine ⟨?_, by decide, by decide, by decide, by decide, ?_⟩
  · intro d
    show ((pyDictGet _INSURANCE_ENCODING (d.insurancePlan.getD "Bronze") 1 : ℤ) : ℚ) = _
    congr 1
    cases hop : d.insurancePlan with
    | none => decide
    | some s =>
        simp only [Option.getD_some]
        by_cases h1 : s = "Bronze"
        · subst h1; decide
        by_cases h2 : s = "Silver"
        · subst h2; decide
        by_cases h3 : s = "Gold"
        · subst h3; decide
        have hf : _INSURANCE_ENCODING.find? (fun pr => pr.1 == s) = none := by
          rw [List.find?_eq_none]
          intro x hx
          simp only [_INSURANCE_ENCODING, List.mem_cons, List.not_mem_nil,
            or_false] at hx
          rcases hx with rfl | rfl | rfl <;> simp only [beq_iff_eq] <;> intro hk
          · exact h1 hk.symm
          · exact h2 hk.symm
          · exact h3 hk.symm
        rw [pyDictGet, hf]
        simp [planCodeClaim, h1, h2, h3]
  · intro s h1 h2 h3
    simp [planCodeClaim, h1, h2, h3]

theorem C8_insurance_encoding_witness :
    (encodeFeatures sampleInput).insurance_plan =
      ((planCodeClaim sampleInput.insurancePlan : ℤ) : ℚ)
    ∧ planCodeClaim (some "Platinum") = 1 :=
  ⟨C8_insurance_encoding.1 sampleInput,
    C8_insurance_encoding.2.2.2.2.2 "Platinum" (by decide) (by decide) (by decide)⟩

/-- C9: with the process-wide artifact state threaded explicitly, a call of
`predict` leaves the state unchanged (the module assigns no global after
import), so a second call on the identical record yields the identical
result. -/
theorem C9_predict_stateless (art : Artifacts) (d : InputRecord) :
    (predictS art d).2 = art
    ∧ predictS (predictS art d).2 d = predictS art d :=
  ⟨rfl, rfl⟩

/-- C10: `_ensure_scaler_format` is a total case analysis — `None` yields no
scaling, a bare transform is scoped to exactly `age` and `income_lakhs`, a
dict with both `"scaler"` and `"cols_to_scale"` keys is used as-is, and a
dict missing either key raises `ValueError`. -/
theorem C10_scaler_format_cases :
    _ensure_scaler_format none = .ok none
    ∧ (∀ t, _ensure_scaler_format (some (.bare t)) =
        .ok (some ⟨t, ["age", "income_lakhs"]⟩))
    ∧ (∀ t cols, _ensure_scaler_format (some (.dict true true t cols)) =
        .ok (some ⟨t, cols⟩))
    ∧ (∀ t cols, _ensure_scaler_format (some (.dict true false t cols)) =
        .error .scalerDictInvalid)
    ∧ (∀ t cols, _ensure_scaler_format (some (.dict false true t cols)) =
        .error .scalerDictInvalid)
    ∧ (∀ t cols, _ensure_scaler_format (some (.dict false false t cols)) =
        .error .scalerDictInvalid) :=
  ⟨rfl, fun _ => rfl, fun _ _ => rfl, fun _ _ => rfl, fun _ _ => rfl,
    fun _ _ => rfl⟩

end
